import Mathlib

/-!
Verification of the OAuth 2.0 Authorization Code + PKCE subsystem of the
BuckitBackend repository: the Code Store (`app/core/redis_manager.py`) and the
Authorization Flow Controller (`app/api/routes/auth.py`).

The embedding is shallow: Python functions become Lean functions, the shared
Redis store becomes an explicit value of type `Store` threaded through the
operations, and backend (RedisError) failures become an explicit `err` flag on
each store operation (the flag says whether the underlying network round-trip
raises; the `try/except redis.RedisError` structure of the source is then
translated directly).  Exceptions that the source does *not* catch
(`json.JSONDecodeError`, `KeyError`, signing errors from the `jose` library)
are modelled with `Except PyExc`.
-/

namespace Buckit

/-! ### Bytes, 32-bit words, SHA-256

`hashlib.sha256` is the CPython standard library's FIPS 180-4 SHA-256.  It is
called by `compute_code_challenge` in `auth.py`; we embed the full algorithm so
that the challenge computation is executable.  Bytes are `Nat < 256`, words are
`Nat < 2^32` with explicit `% 2^32` where overflow matters. -/

/-- Truncate to a 32-bit word. -/
def w32 (n : Nat) : Nat := n % 4294967296

/-- Right rotation of a 32-bit word. -/
def rotr32 (n x : Nat) : Nat := w32 ((x >>> n) ||| (x <<< (32 - n)))

/-- Bitwise complement of a 32-bit word. -/
def not32 (x : Nat) : Nat := x ^^^ 4294967295

/-- SHA-256 `Ch` function. -/
def sha256Ch (x y z : Nat) : Nat := (x &&& y) ^^^ (not32 x &&& z)

/-- SHA-256 `Maj` function. -/
def sha256Maj (x y z : Nat) : Nat := (x &&& y) ^^^ (x &&& z) ^^^ (y &&& z)

/-- SHA-256 small sigma 0 (message schedule). -/
def sha256s0 (x : Nat) : Nat := rotr32 7 x ^^^ rotr32 18 x ^^^ (x >>> 3)

/-- SHA-256 small sigma 1 (message schedule). -/
def sha256s1 (x : Nat) : Nat := rotr32 17 x ^^^ rotr32 19 x ^^^ (x >>> 10)

/-- SHA-256 big Sigma 0 (compression). -/
def sha256S0 (x : Nat) : Nat := rotr32 2 x ^^^ rotr32 13 x ^^^ rotr32 22 x

/-- SHA-256 big Sigma 1 (compression). -/
def sha256S1 (x : Nat) : Nat := rotr32 6 x ^^^ rotr32 11 x ^^^ rotr32 25 x

/-- The 64 SHA-256 round constants, written in decimal. -/
def sha256K : List Nat :=
  [1116352408, 1899447441, 3049323471, 3921009573,
   961987163, 1508970993, 2453635748, 2870763221,
   3624381080, 310598401, 607225278, 1426881987,
   1925078388, 2162078206, 2614888103, 3248222580,
   3835390401, 4022224774, 264347078, 604807628,
   770255983, 1249150122, 1555081692, 1996064986,
   2554220882, 2821834349, 2952996808, 3210313671,
   3336571891, 3584528711, 113926993, 338241895,
   666307205, 773529912, 1294757372, 1396182291,
   1695183700, 1986661051, 2177026350, 2456956037,
   2730485921, 2820302411, 3259730800, 3345764771,
   3516065817, 3600352804, 4094571909, 275423344,
   430227734, 506948616, 659060556, 883997877,
   958139571, 1322822218, 1537002063, 1747873779,
   1955562222, 2024104815, 2227730452, 2361852424,
   2428436474, 2756734187, 3204031479, 3329325298]

/-- Chaining state: the eight working variables of SHA-256. -/
structure Sha256St where
  a : Nat
  b : Nat
  c : Nat
  d : Nat
  e : Nat
  f : Nat
  g : Nat
  h : Nat
deriving DecidableEq

/-- The SHA-256 initial hash value, written in decimal. -/
def sha256H0 : Sha256St :=
  ⟨1779033703, 3144134277, 1013904242, 2773480762,
   1359893119, 2600822924, 528734635, 1541459225⟩

/-- Big-endian byte expansion (`n` bytes, most significant first). -/
def beBytes : Nat → Nat → List Nat
  | 0, _ => []
  | m + 1, x => beBytes m (x >>> 8) ++ [x &&& 255]

/-- SHA-256 message padding: a `0x80` byte, zeros to 56 mod 64, then the
bit length as 8 big-endian bytes. -/
def sha256Pad (msg : List Nat) : List Nat :=
  let L := msg.length
  msg ++ 128 :: List.replicate ((119 - L % 64) % 64) 0 ++ beBytes 8 (L * 8)

/-- Pack bytes into 32-bit big-endian words. -/
def bytesToWords : List Nat → List Nat
  | a :: b :: c :: d :: rest => (((a * 256 + b) * 256 + c) * 256 + d) :: bytesToWords rest
  | _ => []

/-- Split a word list into 16-word (64-byte) blocks.  The padded message is
always a whole number of blocks, so the final wildcard never drops data. -/
def wordsToBlocks : List Nat → List (List Nat)
  | w0 :: w1 :: w2 :: w3 :: w4 :: w5 :: w6 :: w7 ::
    w8 :: w9 :: w10 :: w11 :: w12 :: w13 :: w14 :: w15 :: rest =>
    [w0, w1, w2, w3, w4, w5, w6, w7, w8, w9, w10, w11, w12, w13, w14, w15] ::
      wordsToBlocks rest
  | _ => []

/-- Extend the (reversed) message schedule by `n` further words; the head of
the accumulator is the most recently produced word. -/
def sha256Extend : Nat → List Nat → List Nat
  | 0, ws => ws
  | n + 1, ws =>
    let w2 := ws.getD 1 0
    let w7 := ws.getD 6 0
    let w15 := ws.getD 14 0
    let w16 := ws.getD 15 0
    sha256Extend n (w32 (sha256s1 w2 + w7 + sha256s0 w15 + w16) :: ws)

/-- One SHA-256 compression round, consuming a `(roundConstant, scheduleWord)`
pair. -/
def sha256Round (st : Sha256St) (kw : Nat × Nat) : Sha256St :=
  let t1 := w32 (st.h + sha256S1 st.e + sha256Ch st.e st.f st.g + kw.1 + kw.2)
  let t2 := w32 (sha256S0 st.a + sha256Maj st.a st.b st.c)
  ⟨w32 (t1 + t2), st.a, st.b, st.c, w32 (st.d + t1), st.e, st.f, st.g⟩

/-- Process one 16-word (64-byte) block. -/
def sha256Chunk (hs : Sha256St) (block : List Nat) : Sha256St :=
  let ws := (sha256Extend 48 block.reverse).reverse
  let st := (sha256K.zip ws).foldl sha256Round hs
  ⟨w32 (hs.a + st.a), w32 (hs.b + st.b), w32 (hs.c + st.c), w32 (hs.d + st.d),
   w32 (hs.e + st.e), w32 (hs.f + st.f), w32 (hs.g + st.g), w32 (hs.h + st.h)⟩

/-- SHA-256 of a byte list: the 32 digest bytes, as `hashlib.sha256(..).digest()`
emits them. -/
def sha256 (msg : List Nat) : List Nat :=
  let fin := (wordsToBlocks (bytesToWords (sha256Pad msg))).foldl sha256Chunk sha256H0
  beBytes 4 fin.a ++ beBytes 4 fin.b ++ beBytes 4 fin.c ++ beBytes 4 fin.d ++
  beBytes 4 fin.e ++ beBytes 4 fin.f ++ beBytes 4 fin.g ++ beBytes 4 fin.h

/-! ### UTF-8 encoding and base64url

`verifier.encode()` is UTF-8 encoding; `base64.urlsafe_b64encode` uses the
`A..Z a..z 0..9 - _` alphabet with `=` padding, and `.rstrip("=")` removes all
trailing `=` characters. -/

/-- UTF-8 bytes of one Unicode code point (`str.encode()` semantics). -/
def utf8Char (c : Nat) : List Nat :=
  if c < 128 then [c]
  else if c < 2048 then [192 + (c >>> 6), 128 + (c &&& 63)]
  else if c < 65536 then [224 + (c >>> 12), 128 + ((c >>> 6) &&& 63), 128 + (c &&& 63)]
  else [240 + (c >>> 18), 128 + ((c >>> 12) &&& 63), 128 + ((c >>> 6) &&& 63), 128 + (c &&& 63)]

/-- UTF-8 encoding of a string (`s.encode()` in Python). -/
def strEncode (s : String) : List Nat :=
  (s.data.map (fun c => utf8Char c.toNat)).flatten

/-- The URL-safe base64 alphabet used by `base64.urlsafe_b64encode`. -/
def b64urlAlphabet : List Char :=
  "ABCDEFGHIJKLMNOPQRSTUVWXYZabcdefghijklmnopqrstuvwxyz0123456789-_".data

/-- Character for a 6-bit group. -/
def b64Char (n : Nat) : Char := b64urlAlphabet.getD n 'A'

/-- base64url encoding of a byte list, including `=` padding. -/
def b64urlChars : List Nat → List Char
  | a :: b :: c :: rest =>
    let n := (a * 256 + b) * 256 + c
    b64Char (n >>> 18) :: b64Char ((n >>> 12) &&& 63) :: b64Char ((n >>> 6) &&& 63) ::
      b64Char (n &&& 63) :: b64urlChars rest
  | [a, b] =>
    let n := (a * 256 + b) * 256
    [b64Char (n >>> 18), b64Char ((n >>> 12) &&& 63), b64Char ((n >>> 6) &&& 63), '=']
  | [a] =>
    let n := a * 65536
    [b64Char (n >>> 18), b64Char ((n >>> 12) &&& 63), '=', '=']
  | [] => []

/-- Encoding `base64.urlsafe_b64encode(bs).decode()`: the padded base64url string. -/
def urlsafe_b64encode (bs : List Nat) : String := ⟨b64urlChars bs⟩

/-- Python's `s.rstrip("=")`: remove every trailing `=`. -/
def rstripEquals (s : String) : String :=
  ⟨(s.data.reverse.dropWhile (fun c => c == '=')).reverse⟩

/-- Function `compute_code_challenge` from `auth.py` (lines 69-71):
`base64.urlsafe_b64encode(hashlib.sha256(verifier.encode()).digest()).decode().rstrip("=")`. -/
def compute_code_challenge (verifier : String) : String :=
  rstripEquals (urlsafe_b64encode (sha256 (strEncode verifier)))

/-! ### The Redis store model

The shared Redis database is a map from keys to values with a time-to-live.
A stored value is, in this subsystem, always the `json.dumps` of a flat
string-valued dict, so the value space is modelled as either such a JSON
object (kept as its field list, in insertion order) or a non-JSON blob;
`json.dumps` of a field list is injective on this space and `json.loads`
of a non-JSON blob raises, which is all the source's uses of the two
functions observe. -/

/-- A value held in Redis: the `json.dumps` of a flat string dict, or bytes
that are not valid JSON. -/
inductive RVal where
  | jsonOf (fields : List (String × String))
  | nonJson (raw : String)
deriving DecidableEq

/-- A Redis entry: the value plus the remaining time-to-live in seconds. -/
structure RedisEntry where
  val : RVal
  ttlSeconds : Nat
deriving DecidableEq

/-- The shared Redis database, keyed by string. -/
def Store := String → Option RedisEntry

/-- Command `r.setex(k, ttl, v)`: write `v` under `k` with the given TTL. -/
def redisSetex (s : Store) (k : String) (ttl : Nat) (v : RVal) : Store :=
  fun q => if q = k then some ⟨v, ttl⟩ else s q

/-- Command `r.get(k)`: the stored value, `None` when the key is absent. -/
def redisGet (s : Store) (k : String) : Option RVal :=
  (s k).map RedisEntry.val

/-- Command `r.delete(k)`: remove the key; the second component is the number of keys
removed (0 or 1), which is what the command returns. -/
def redisDel (s : Store) (k : String) : Store × Nat :=
  (fun q => if q = k then none else s q, if (s k).isSome then 1 else 0)

/-- Python truthiness of a stored value: only the empty byte string is falsy
(`json.dumps` output is never empty). -/
def rvalFalsy : RVal → Bool
  | .jsonOf _ => false
  | .nonJson raw => raw.isEmpty

/-- The Python exceptions that can escape this subsystem's functions:
`json.JSONDecodeError` from `json.loads`, `KeyError` from a dict subscript,
and `jose.JWSError` from `jwt.encode`. -/
inductive PyExc where
  | jsonDecodeError
  | keyError
  | joseError
deriving DecidableEq

/-- Parsing `json.loads` on a stored value: the parsed dict, or `JSONDecodeError` on a
non-JSON blob. -/
def jsonLoads : RVal → Except PyExc (List (String × String))
  | .jsonOf fields => .ok fields
  | .nonJson _ => .error .jsonDecodeError

/-! ### The Code Store (`app/core/redis_manager.py`)

Each operation takes an `err : Bool` saying whether the Redis round-trip it
performs raises `redis.RedisError` (connection failure, timeout); the
`try/except redis.RedisError` of the source then maps that to the sentinel
return value.  `json.JSONDecodeError` is *not* caught by the source and is
therefore surfaced in the `Except`. -/

/-- Function `store_auth_code` (redis_manager.py lines 22-43): `setex` under key
`auth:<code>` with TTL `timedelta(minutes=expiry_minutes)`; `True` on success,
`False` when the backend raises. -/
def store_auth_code (err : Bool) (s : Store) (auth_code : String)
    (data : List (String × String)) (expiry_minutes : Nat := 10) : Store × Bool :=
  if err then (s, false)
  else (redisSetex s ("auth:" ++ auth_code) (expiry_minutes * 60) (.jsonOf data), true)

/-- Function `get_auth_code_data` (redis_manager.py lines 45-63): `get`, `None` when
absent or falsy or on a backend error; otherwise `json.loads` of the value
(whose failure propagates). -/
def get_auth_code_data (err : Bool) (s : Store) (auth_code : String) :
    Except PyExc (Option (List (String × String))) :=
  if err then .ok none
  else
    match redisGet s ("auth:" ++ auth_code) with
    | none => .ok none
    | some v => if rvalFalsy v then .ok none else (jsonLoads v).map some

/-- Function `delete_auth_code` (redis_manager.py lines 65-80): `delete`, returning the
removed-key count, 0 on a backend error. -/
def delete_auth_code (err : Bool) (s : Store) (auth_code : String) : Store × Nat :=
  if err then (s, 0) else redisDel s ("auth:" ++ auth_code)

/-- Function `safely_use_and_delete_auth_code` (redis_manager.py lines 82-107): a
pipelined (`MULTI`/`EXEC`, hence atomic) `get` + `delete` of `auth:<code>`;
`None` when `results[0]` is falsy or on a backend error, otherwise
`json.loads(results[0])` (whose failure propagates — after the delete has
already executed). -/
def safely_use_and_delete_auth_code (err : Bool) (s : Store) (auth_code : String) :
    Store × Except PyExc (Option (List (String × String))) :=
  if err then (s, .ok none)
  else
    let key := "auth:" ++ auth_code
    let got := redisGet s key
    let s' := (redisDel s key).1
    match got with
    | none => (s', .ok none)
    | some v => if rvalFalsy v then (s', .ok none) else (s', (jsonLoads v).map some)

/-! ### Environment configuration -/

/-- The process environment, as read by `os.getenv`. -/
def Env := String → Option String

/-- Reading `os.getenv(k)`. -/
def getenv (env : Env) (k : String) : Option String := env k

/-- Line `SECRET_KEY = os.getenv("SECRET_KEY")` (auth.py line 21): no default. -/
def SECRET_KEY (env : Env) : Option String := getenv env "SECRET_KEY"

/-- Line `ALGORITHM = os.getenv("ALGORITHM")` (auth.py line 22): no default — unset
means `None` is later passed to `jwt.encode`. -/
def ALGORITHM (env : Env) : Option String := getenv env "ALGORITHM"

/-- Line `ACCESS_TOKEN_EXPIRE_MINUTES = int(os.getenv("ACCESS_TOKEN_EXPIRE_MINUTES", 30))`
(auth.py line 23).  `int()` of a malformed string raises at module import, so
the module never loads in that case; only the loadable configurations are
modelled, via `toNat?.getD 0`. -/
def ACCESS_TOKEN_EXPIRE_MINUTES (env : Env) : Nat :=
  match getenv env "ACCESS_TOKEN_EXPIRE_MINUTES" with
  | none => 30
  | some s => s.toNat?.getD 0

/-- The `REDIS_HOST` default in `redis.ConnectionPool` (redis_manager.py line 11). -/
def REDIS_HOST (env : Env) : String := (getenv env "REDIS_HOST").getD "redis"

/-- The `REDIS_PORT` default in `redis.ConnectionPool` (redis_manager.py line 12). -/
def REDIS_PORT (env : Env) : Nat :=
  match getenv env "REDIS_PORT" with
  | none => 6379
  | some s => s.toNat?.getD 0

/-- The `max_connections=100` ceiling in `redis.ConnectionPool` (redis_manager.py line 14). -/
def redis_pool_max_connections : Nat := 100

/-! ### Timestamps and JWTs -/

/-- A `datetime.datetime` value as produced by `datetime.now(UTC)`. -/
structure PyDateTime where
  year : Nat
  month : Nat
  day : Nat
  hour : Nat
  minute : Nat
  second : Nat
  microsecond : Nat
deriving DecidableEq

/-- Decimal rendering zero-padded to `width` digits. -/
def padNum (width n : Nat) : String :=
  ⟨List.replicate (width - (toString n).length) '0'⟩ ++ toString n

/-- Rendering `datetime.isoformat()` for a UTC-aware datetime: the ISO-8601 string
`YYYY-MM-DDTHH:MM:SS[.ffffff]+00:00` (the fractional part is omitted exactly
when the microsecond field is zero). -/
def isoformatUTC (d : PyDateTime) : String :=
  padNum 4 d.year ++ "-" ++ padNum 2 d.month ++ "-" ++ padNum 2 d.day ++ "T" ++
  padNum 2 d.hour ++ ":" ++ padNum 2 d.minute ++ ":" ++ padNum 2 d.second ++
  (if d.microsecond = 0 then "" else "." ++ padNum 6 d.microsecond) ++ "+00:00"

/-- A token produced by `jose.jwt.encode`: the signed compact serialization is
determined by (and, for a fixed supported algorithm, determines) the payload
claims, the signing key and the algorithm, so it is modelled by that data. -/
structure SignedJwt where
  sub : String
  exp : Nat
  key : String
  alg : String
deriving DecidableEq

/-- The signature algorithms `jose.jws.sign` accepts. -/
def joseSupportedAlgorithms : List String :=
  ["HS256", "HS384", "HS512", "RS256", "RS384", "RS512", "ES256", "ES384", "ES512"]

/-- Model of `jose.jwt.encode(payload, key, algorithm)` for the payload shape
`{"sub": .., "exp": ..}` built in auth.py: the external `jose` library signs
and returns the compact token when the algorithm is supported and a key is
given, and raises (`JWSError` for an unsupported or `None` algorithm, an error
for a `None` key) otherwise. -/
def jwt_encode (sub : String) (exp : Nat) (key : Option String) (alg : Option String) :
    Except PyExc SignedJwt :=
  match alg, key with
  | some a, some k =>
    if a ∈ joseSupportedAlgorithms then .ok ⟨sub, exp, k, a⟩ else .error .joseError
  | _, _ => .error .joseError

/-! ### The Authorization Flow Controller (`app/api/routes/auth.py`)

`authorize` and `token` are FastAPI handlers; an `HTTPException` raised inside
them becomes the HTTP error response, and any other exception escapes to the
framework (a 500).  The generated code (`uuid.uuid4()`) and the clock
(`datetime.now(UTC)`) are inputs of the embedding. -/

/-- Outcome of the `/authorize` handler. -/
inductive AuthorizeResult where
  | ok (auth_code : String)
  | httpError (status : Nat) (detail : String)
deriving DecidableEq

/-- Handler `authorize` (auth.py lines 29-53): store the four-field record under the
fresh code with the default 10-minute TTL; 500 when the store reports failure,
otherwise return the code. -/
def authorize (err : Bool) (s : Store) (client_id redirect_uri code_challenge : String)
    (auth_code : String) (now : PyDateTime) : Store × AuthorizeResult :=
  let record := [("client_id", client_id), ("redirect_uri", redirect_uri),
                 ("code_challenge", code_challenge), ("created_at", isoformatUTC now)]
  let res := store_auth_code err s auth_code record
  if res.2 = false then (res.1, .httpError 500 "Failed to generate authorization code")
  else (res.1, .ok auth_code)

/-- Outcome of the `/token` handler. -/
inductive TokenOutcome where
  | ok (access_token : SignedJwt) (token_type : String)
  | httpError (status : Nat) (detail : String)
  | raised (e : PyExc)
deriving DecidableEq

/-- Whether a `/token` outcome is the 200 response. -/
def TokenOutcome.isOk : TokenOutcome → Bool
  | .ok _ _ => true
  | _ => false

/-- Handler `token`, lines 66-86 of auth.py: everything after the pipelined take.
This part performs no further store access, so it is a pure function of the
take's result.  `if not stored` also catches a stored *empty* dict, which is
falsy in Python, hence the `isEmpty` test; `stored["code_challenge"]` and
`stored["client_id"]` raise `KeyError` when the parsed object lacks the field;
the expiry is `now + timedelta(minutes=ACCESS_TOKEN_EXPIRE_MINUTES)` in
seconds. -/
def tokenDecision (env : Env) (code_verifier : String) (now : Nat) :
    Except PyExc (Option (List (String × String))) → TokenOutcome
  | .error e => .raised e
  | .ok none => .httpError 400 "Invalid or expired code"
  | .ok (some stored) =>
    if stored.isEmpty then .httpError 400 "Invalid or expired code"
    else
      match stored.lookup "code_challenge" with
      | none => .raised .keyError
      | some expected =>
        if compute_code_challenge code_verifier ≠ expected then
          .httpError 400 "Invalid code verifier"
        else
          match stored.lookup "client_id" with
          | none => .raised .keyError
          | some cid =>
            match jwt_encode cid (now + 60 * ACCESS_TOKEN_EXPIRE_MINUTES env)
                (SECRET_KEY env) (ALGORITHM env) with
            | .error e => .raised e
            | .ok tok => .ok tok "bearer"

/-- Handler `token` (auth.py lines 55-86): the grant-type gate, then the single
atomic pipelined take, then the pure PKCE verification and signing of
`tokenDecision`. -/
def token (err : Bool) (env : Env) (s : Store) (grant_type code code_verifier : String)
    (now : Nat) : Store × TokenOutcome :=
  if grant_type ≠ "authorization_code" then (s, .httpError 400 "Unsupported grant type")
  else
    let res := safely_use_and_delete_auth_code err s code
    (res.1, tokenDecision env code_verifier now res.2)

/-- A batch of `/token` requests `(grant_type, code, code_verifier)` executed
in sequence against the shared store.  Each request's store interaction is the
single atomic pipelined take, so every interleaving of `N` concurrent requests
is equivalent to running them in some order from some reachable store — which
this captures by quantifying over the order and the initial store. -/
def runTokens (err : Bool) (env : Env) (now : Nat) :
    Store → List (String × String × String) → Store × List TokenOutcome
  | s, [] => (s, [])
  | s, (g, c, v) :: rest =>
    let r := token err env s g c v now
    let rest' := runTokens err env now r.1 rest
    (rest'.1, r.2 :: rest'.2)

/-! ### Consuming operations, for the idempotence property

The spec groups `delete` and `take` as the two consuming Code Store
operations; `consume` runs either one (against a healthy backend) and
returns its observable result. -/

/-- One of the two consuming Code Store operations. -/
inductive ConsumeOp where
  | del
  | take
deriving DecidableEq

/-- The observable result of a consuming operation: the removed-key count of
`delete_auth_code`, or the full result of `safely_use_and_delete_auth_code`. -/
inductive ConsumeResult where
  | delCount (n : Nat)
  | takeRes (r : Except PyExc (Option (List (String × String))))

/-- Run one consuming operation against the store. -/
def consume (op : ConsumeOp) (s : Store) (c : String) : Store × ConsumeResult :=
  match op with
  | .del => ((delete_auth_code false s c).1, .delCount (delete_auth_code false s c).2)
  | .take => ((safely_use_and_delete_auth_code false s c).1,
              .takeRes (safely_use_and_delete_auth_code false s c).2)

/-- A non-empty observation: a non-zero count for `delete`, a record for
`take`. -/
def ConsumeResult.nonEmpty : ConsumeResult → Bool
  | .delCount n => n != 0
  | .takeRes (.ok (some _)) => true
  | .takeRes _ => false

/-- The "absent" report of each consuming operation: 0 for `delete`,
not-found for `take`. -/
def absenceReport : ConsumeOp → ConsumeResult
  | .del => .delCount 0
  | .take => .takeRes (.ok none)

/-! ### Concrete fixtures for the witnesses -/

/-- An environment with no variables set. -/
def envEmpty : Env := fun _ => none

/-- An environment configured the way the repository's tests configure it. -/
def envW : Env := fun k =>
  if k = "SECRET_KEY" then some "test-secret-key"
  else if k = "ALGORITHM" then some "HS256"
  else none

/-- The empty store. -/
def storeEmpty : Store := fun _ => none

/-- A stored record whose challenge matches the verifier `"test-verifier"`. -/
def fieldsW : List (String × String) :=
  [("client_id", "test-client"), ("redirect_uri", "https://cb"),
   ("code_challenge", compute_code_challenge "test-verifier"),
   ("created_at", "2026-10-12T00:00:00+00:00")]

/-- A store holding `fieldsW` under the code `test-code`. -/
def storeW : Store := fun k =>
  if k = "auth:test-code" then some ⟨.jsonOf fieldsW, 600⟩ else none

/-- A stored record whose challenge is not the encoding of any digest. -/
def fieldsBad : List (String × String) :=
  [("client_id", "test-client"), ("redirect_uri", "https://cb"),
   ("code_challenge", "correct-challenge"),
   ("created_at", "2026-10-12T00:00:00+00:00")]

/-- A store holding `fieldsBad` under the code `test-code`. -/
def storeBad : Store := fun k =>
  if k = "auth:test-code" then some ⟨.jsonOf fieldsBad, 600⟩ else none

/-- A store whose value under `auth:test-code` is not valid JSON. -/
def storeJunk : Store := fun k =>
  if k = "auth:test-code" then some ⟨.nonJson "oops", 600⟩ else none

/-- A creation timestamp for the authorize witness. -/
def dtW : PyDateTime := ⟨2026, 10, 12, 4, 5, 6, 0⟩

/-- The store produced by the authorize witness run. -/
def s9W : Store := (authorize false storeEmpty "abc" "https://cb" "chal" "code-1" dtW).1

/-- The store left behind by a token call that fails PKCE verification. -/
def s3W : Store :=
  (token false envEmpty storeBad "authorization_code" "test-code" "wrong-verifier" 0).1

/-- The store left behind by a successful token call. -/
def s8W : Store :=
  (token false envW storeW "authorization_code" "test-code" "test-verifier" 0).1

/-- The token the successful witness call issues. -/
def jwtW : SignedJwt := ⟨"test-client", 1800, "test-secret-key", "HS256"⟩

/-- Two identical token requests redeeming the same code. -/
def reqsW : List (String × String × String) :=
  [("authorization_code", "test-code", "test-verifier"),
   ("authorization_code", "test-code", "test-verifier")]

/-! ## Helper lemmas -/

/-- The pipelined take always deletes its key, whatever it observed there. -/
theorem take_deletes_key (s : Store) (c : String) :
    (safely_use_and_delete_auth_code false s c).1 ("auth:" ++ c) = none := by
  simp only [safely_use_and_delete_auth_code]
  cases hg : redisGet s ("auth:" ++ c) with
  | none => simp [hg, redisDel]
  | some v => cases hrv : rvalFalsy v <;> simp [hg, hrv, redisDel]

/-- The pipelined take does not touch other keys. -/
theorem take_preserves_other (s : Store) (c q : String) (hq : q ≠ "auth:" ++ c) :
    (safely_use_and_delete_auth_code false s c).1 q = s q := by
  simp only [safely_use_and_delete_auth_code]
  cases hg : redisGet s ("auth:" ++ c) with
  | none => simp [hg, redisDel, hq]
  | some v => cases hrv : rvalFalsy v <;> simp [hg, hrv, redisDel, hq]

/-- Take on an absent key: nothing observed, store unchanged. -/
theorem take_missing (s : Store) (c : String) (h : s ("auth:" ++ c) = none) :
    safely_use_and_delete_auth_code false s c = (s, .ok none) := by
  have hg : redisGet s ("auth:" ++ c) = none := by simp [redisGet, h]
  simp only [safely_use_and_delete_auth_code, hg]
  refine Prod.ext ?_ (by simp)
  funext q
  by_cases hq : q = "auth:" ++ c <;> simp [redisDel, hq, h]

/-- Take on a stored JSON record: the record is returned and the key removed. -/
theorem take_found (s : Store) (c : String) (fields : List (String × String)) (ttl : Nat)
    (h : s ("auth:" ++ c) = some ⟨.jsonOf fields, ttl⟩) :
    safely_use_and_delete_auth_code false s c =
      ((redisDel s ("auth:" ++ c)).1, .ok (some fields)) := by
  have hg : redisGet s ("auth:" ++ c) = some (.jsonOf fields) := by simp [redisGet, h]
  simp [safely_use_and_delete_auth_code, hg, rvalFalsy, jsonLoads, Except.map]

/-- Unfolding `token` when the grant type is right: the atomic take, then the
pure decision. -/
theorem token_grant_ok (err : Bool) (env : Env) (s : Store) (c v : String) (now : Nat) :
    token err env s "authorization_code" c v now =
      ((safely_use_and_delete_auth_code err s c).1,
       tokenDecision env v now (safely_use_and_delete_auth_code err s c).2) := by
  unfold token
  rw [if_neg (fun h => h rfl)]

/-- A `token` call with any other grant type fails before touching the
store. -/
theorem token_wrong_grant (err : Bool) (env : Env) (s : Store) (g c v : String)
    (now : Nat) (hg : g ≠ "authorization_code") :
    token err env s g c v now = (s, .httpError 400 "Unsupported grant type") := by
  unfold token
  rw [if_pos hg]

/-- A successful `lookup` needs a nonempty association list. -/
theorem lookup_nonempty {fields : List (String × String)} {k w : String}
    (h : fields.lookup k = some w) : fields.isEmpty = false := by
  cases fields with
  | nil => simp at h
  | cons p l => rfl

/-- Reducing `tokenDecision` on a taken record whose challenge field is present:
everything reduces to the PKCE comparison and the signing step. -/
theorem tokenDecision_found (env : Env) (v : String) (now : Nat)
    (fields : List (String × String)) (ch : String)
    (hch : fields.lookup "code_challenge" = some ch) :
    tokenDecision env v now (.ok (some fields)) =
      if compute_code_challenge v ≠ ch then .httpError 400 "Invalid code verifier"
      else
        match fields.lookup "client_id" with
        | none => .raised .keyError
        | some cid =>
          match jwt_encode cid (now + 60 * ACCESS_TOKEN_EXPIRE_MINUTES env)
              (SECRET_KEY env) (ALGORITHM env) with
          | .error e => .raised e
          | .ok tok => .ok tok "bearer" := by
  simp only [tokenDecision, lookup_nonempty hch, Bool.false_eq_true, if_false, hch]

/-- A character surviving `dropWhile p` at the head does not satisfy `p`. -/
theorem head?_dropWhile_false {p : Char → Bool} {l : List Char} {a : Char}
    (h : (l.dropWhile p).head? = some a) : p a = false := by
  induction l with
  | nil => simp [List.dropWhile] at h
  | cons x xs ih =>
    rw [List.dropWhile_cons] at h
    by_cases hp : p x
    · rw [if_pos hp] at h; exact ih h
    · rw [if_neg hp] at h
      simp only [List.head?_cons, Option.some.injEq] at h
      subst h
      simpa using hp

/-- Python `rstrip("=")` leaves no trailing `=`. -/
theorem rstripEquals_no_trailing (s : String) :
    (rstripEquals s).data.getLast? ≠ some '=' := by
  intro h
  have h' : (s.data.reverse.dropWhile (fun c => c == '=')).reverse.getLast? = some '=' := h
  rw [List.getLast?_reverse] at h'
  have hf := head?_dropWhile_false h'
  simp at hf

/-- A computed PKCE challenge never ends in `=`: the padding has been
stripped. -/
theorem compute_code_challenge_no_trailing (v : String) :
    (compute_code_challenge v).data.getLast? ≠ some '=' :=
  rstripEquals_no_trailing _

/-- What a successful `jwt_encode` reveals about its inputs: the token was
signed with the supplied key and algorithm over the supplied claims. -/
theorem jwt_encode_ok (sub : String) (expire : Nat) (key alg : Option String)
    (t : SignedJwt) (h : jwt_encode sub expire key alg = .ok t) :
    t.sub = sub ∧ t.exp = expire ∧ key = some t.key ∧ alg = some t.alg ∧
    t.alg ∈ joseSupportedAlgorithms := by
  rcases alg with _ | a <;> rcases key with _ | k <;> simp [jwt_encode] at h
  by_cases hsup : a ∈ joseSupportedAlgorithms
  · rw [if_pos hsup] at h
    obtain rfl : SignedJwt.mk sub expire k a = t := by
      simpa using h
    exact ⟨rfl, rfl, rfl, rfl, hsup⟩
  · rw [if_neg hsup] at h
    simp at h

/-! ## Claim theorems -/

/-- C4: on a backend (Redis) error every Code Store operation returns its
sentinel instead of raising — `put` gives `false`, `get` and `take` give
not-found, `delete` gives 0 — and the store is untouched; no transport
exception appears in any result. -/
theorem backend_error_degrades_to_sentinels (s : Store) (code : String)
    (data : List (String × String)) (em : Nat) :
    store_auth_code true s code data em = (s, false) ∧
    get_auth_code_data true s code = .ok none ∧
    delete_auth_code true s code = (s, 0) ∧
    safely_use_and_delete_auth_code true s code = (s, .ok none) :=
  ⟨rfl, rfl, rfl, rfl⟩

/-- C5: a `token` call whose grant type is not the literal
`"authorization_code"` fails with the 400 "Unsupported grant type" error and
returns the store exactly as it was — the grant-type gate precedes any Code
Store access, whatever the backend state or the supplied code. -/
theorem unsupported_grant_no_store_access (err : Bool) (env : Env) (s : Store)
    (g c v : String) (now : Nat) (hg : g ≠ "authorization_code") :
    token err env s g c v now = (s, .httpError 400 "Unsupported grant type") :=
  token_wrong_grant err env s g c v now hg

/-- Witness for C5 at `grant_type = "client_credentials"`. -/
theorem unsupported_grant_no_store_access_witness :
    token false envEmpty storeEmpty "client_credentials" "c" "v" 0 =
      (storeEmpty, .httpError 400 "Unsupported grant type") :=
  unsupported_grant_no_store_access false envEmpty storeEmpty "client_credentials" "c" "v" 0
    (by decide)

/-- C6 (code bug): with no environment configuration, the access-token
lifetime does default to 30 minutes and the pool ceiling is 100, but the
signing algorithm does *not* default to HS256 — `os.getenv("ALGORITHM")` is
`None`, and `jwt.encode` then raises instead of signing. -/
theorem algorithm_unset_not_defaulted :
    ALGORITHM envEmpty = none ∧
    ALGORITHM envEmpty ≠ some "HS256" ∧
    (∀ sub expire k, jwt_encode sub expire (some k) (ALGORITHM envEmpty) =
      .error .joseError) ∧
    ACCESS_TOKEN_EXPIRE_MINUTES envEmpty = 30 ∧
    redis_pool_max_connections = 100 :=
  ⟨rfl, fun h => Option.noConfusion h, fun _ _ _ => rfl, rfl, rfl⟩

/-- After either consuming operation the key is gone. -/
theorem consume_fst_key (op : ConsumeOp) (s : Store) (c : String) :
    (consume op s c).1 ("auth:" ++ c) = none := by
  cases op with
  | del => simp [consume, delete_auth_code, redisDel]
  | take => exact take_deletes_key s c

/-- A consuming operation on an absent key reports absence. -/
theorem consume_on_absent (op : ConsumeOp) (s : Store) (c : String)
    (h : s ("auth:" ++ c) = none) : (consume op s c).2 = absenceReport op := by
  cases op with
  | del => simp [consume, delete_auth_code, redisDel, absenceReport, h]
  | take => simp [consume, absenceReport, take_missing s c h]

/-- C7: two consecutive `delete`/`take` calls on the same code with no
intervening `put`: the second call always reports absence (count 0 for
`delete`, not-found for `take`), so at most one of the two observes a
non-empty result. -/
theorem consume_twice_second_reports_absence (op1 op2 : ConsumeOp) (s : Store) (c : String) :
    (consume op2 (consume op1 s c).1 c).2 = absenceReport op2 ∧
    ((consume op1 s c).2.nonEmpty && (consume op2 (consume op1 s c).1 c).2.nonEmpty) = false := by
  have h2 := consume_on_absent op2 _ c (consume_fst_key op1 s c)
  refine ⟨h2, ?_⟩
  rw [h2]
  cases op2 <;> simp [absenceReport, ConsumeResult.nonEmpty]

/-- C9: a successful `authorize` returns the generated code and writes exactly
one entry: key `auth:<code>`, value the JSON object with exactly the fields
`client_id`, `redirect_uri`, `code_challenge` (the inputs, unmodified) and
`created_at` (the ISO-8601 rendering of the creation instant), TTL 600
seconds; every other key is untouched. -/
theorem authorize_writes_exactly_one_record (err : Bool) (s : Store)
    (cid ruri cch code : String) (now : PyDateTime) (s' : Store) (code' : String)
    (hok : authorize err s cid ruri cch code now = (s', .ok code')) :
    code' = code ∧
    s' ("auth:" ++ code) =
      some ⟨.jsonOf [("client_id", cid), ("redirect_uri", ruri),
                     ("code_challenge", cch), ("created_at", isoformatUTC now)], 600⟩ ∧
    ∀ q, q ≠ "auth:" ++ code → s' q = s q := by
  cases err with
  | true => simp [authorize, store_auth_code] at hok
  | false =>
    have hred : authorize false s cid ruri cch code now =
        (redisSetex s ("auth:" ++ code) (10 * 60)
          (.jsonOf [("client_id", cid), ("redirect_uri", ruri),
                    ("code_challenge", cch), ("created_at", isoformatUTC now)]),
         .ok code) := rfl
    rw [hred] at hok
    injection hok with hs hc
    injection hc with hcc
    subst hcc
    subst hs
    exact ⟨rfl, by simp [redisSetex], fun q hq => by simp [redisSetex, hq]⟩

/-- Witness for C9: a concrete authorize run writes the record and nothing
else. -/
theorem authorize_writes_exactly_one_record_witness :
    s9W ("auth:" ++ "code-1") =
      some ⟨.jsonOf [("client_id", "abc"), ("redirect_uri", "https://cb"),
                     ("code_challenge", "chal"), ("created_at", isoformatUTC dtW)], 600⟩ ∧
    s9W "auth:other" = storeEmpty "auth:other" :=
  ⟨(authorize_writes_exactly_one_record false storeEmpty "abc" "https://cb" "chal" "code-1"
      dtW s9W "code-1" rfl).2.1,
   (authorize_writes_exactly_one_record false storeEmpty "abc" "https://cb" "chal" "code-1"
      dtW s9W "code-1" rfl).2.2 "auth:other" (by decide)⟩

/-- C10: `get` and `take` catch only the backend's own error type
(`redis.RedisError`); on a stored value that is not valid JSON, both raise the
JSON-decoding exception to the caller instead of returning the not-found
sentinel — and the take has nevertheless already deleted the key through the
pipelined delete. -/
theorem invalid_json_raises_to_caller (s : Store) (c raw : String) (ttl : Nat)
    (hval : s ("auth:" ++ c) = some ⟨.nonJson raw, ttl⟩) (hraw : raw ≠ "") :
    get_auth_code_data false s c = .error .jsonDecodeError ∧
    (safely_use_and_delete_auth_code false s c).2 = .error .jsonDecodeError ∧
    (safely_use_and_delete_auth_code false s c).1 ("auth:" ++ c) = none := by
  have hg : redisGet s ("auth:" ++ c) = some (.nonJson raw) := by simp [redisGet, hval]
  have hfalsy : rvalFalsy (.nonJson raw) = false := by
    cases hemp : raw.isEmpty with
    | false => exact hemp
    | true => exact absurd ((String.isEmpty_iff raw).mp hemp) hraw
  refine ⟨?_, ?_, take_deletes_key s c⟩
  · simp [get_auth_code_data, hg, hfalsy, jsonLoads, Except.map]
  · simp [safely_use_and_delete_auth_code, hg, hfalsy, jsonLoads, Except.map]

/-- Witness for C10: a concrete store holding the non-JSON blob `"oops"`. -/
theorem invalid_json_raises_to_caller_witness :
    get_auth_code_data false storeJunk "test-code" = .error .jsonDecodeError ∧
    (safely_use_and_delete_auth_code false storeJunk "test-code").2 =
      .error .jsonDecodeError ∧
    (safely_use_and_delete_auth_code false storeJunk "test-code").1
      ("auth:" ++ "test-code") = none :=
  invalid_json_raises_to_caller storeJunk "test-code" "oops" 600 (by decide) (by decide)

/-- C3: a `token` call that found the record but failed PKCE verification has
already deleted it, so every subsequent `token` call with the same code —
whatever the verifier — fails with the invalid-or-expired-code error and
leaves the store as it is: a code is consumed exactly once regardless of the
verification outcome. -/
theorem verifier_mismatch_consumes_code (env : Env) (s : Store) (c v : String)
    (now : Nat) (s' : Store)
    (h : token false env s "authorization_code" c v now =
      (s', .httpError 400 "Invalid code verifier")) :
    s' ("auth:" ++ c) = none ∧
    ∀ env2 v2 now2, token false env2 s' "authorization_code" c v2 now2 =
      (s', .httpError 400 "Invalid or expired code") := by
  have hfst := congrArg Prod.fst h
  rw [token_grant_ok] at hfst
  dsimp only at hfst
  have hkey : s' ("auth:" ++ c) = none := by
    rw [← hfst]
    exact take_deletes_key s c
  refine ⟨hkey, fun env2 v2 now2 => ?_⟩
  rw [token_grant_ok, take_missing s' c hkey]
  rfl

set_option maxRecDepth 1000000 in
/-- Witness for C3: the mismatching call on `storeBad` consumes the code, and
a correct-verifier retry is rejected. -/
theorem verifier_mismatch_consumes_code_witness :
    s3W ("auth:" ++ "test-code") = none ∧
    token false envEmpty s3W "authorization_code" "test-code" "test-verifier" 1 =
      (s3W, .httpError 400 "Invalid or expired code") :=
  ⟨(verifier_mismatch_consumes_code envEmpty storeBad "test-code" "wrong-verifier" 0 s3W
      (by rfl)).1,
   (verifier_mismatch_consumes_code envEmpty storeBad "test-code" "wrong-verifier" 0 s3W
      (by rfl)).2 envEmpty "test-verifier" 1⟩

/-- C2: when the take returns a stored record and the configuration can sign,
the call succeeds exactly when `base64url_no_padding(SHA256(code_verifier))`
is byte-for-byte equal to the stored `code_challenge`; on any difference it
fails with the 400 "Invalid code verifier" error, and a stored challenge
carrying base64 padding (a trailing `=`) can never compare equal — the
computed encoding is padding-free and nothing is normalized. -/
theorem token_pkce_verify_iff (env : Env) (s : Store) (c v : String) (now : Nat)
    (fields : List (String × String)) (ttl : Nat) (ch cid a sk : String)
    (hrec : s ("auth:" ++ c) = some ⟨.jsonOf fields, ttl⟩)
    (hch : fields.lookup "code_challenge" = some ch)
    (hcid : fields.lookup "client_id" = some cid)
    (halg : ALGORITHM env = some a) (hsup : a ∈ joseSupportedAlgorithms)
    (hsk : SECRET_KEY env = some sk) :
    ((∃ tok, (token false env s "authorization_code" c v now).2 = .ok tok "bearer") ↔
      compute_code_challenge v = ch) ∧
    (compute_code_challenge v ≠ ch →
      (token false env s "authorization_code" c v now).2 =
        .httpError 400 "Invalid code verifier") ∧
    (ch.data.getLast? = some '=' → compute_code_challenge v ≠ ch) := by
  have hsnd : (token false env s "authorization_code" c v now).2 =
      tokenDecision env v now (.ok (some fields)) := by
    rw [token_grant_ok, take_found s c fields ttl hrec]
  rw [hsnd, tokenDecision_found env v now fields ch hch]
  refine ⟨?_, ?_, ?_⟩
  · by_cases hcmp : compute_code_challenge v = ch
    · rw [if_neg (not_not_intro hcmp), hcid, halg, hsk]
      simp [jwt_encode, hsup, hcmp]
    · rw [if_pos hcmp]
      simp [hcmp]
  · intro hcmp
    rw [if_pos hcmp]
  · intro hlast heq
    exact compute_code_challenge_no_trailing v (by rw [heq]; exact hlast)

set_option maxRecDepth 1000000 in
/-- Witness for C2: the fixture record's challenge was computed from
`"test-verifier"`, so redeeming with that verifier succeeds. -/
theorem token_pkce_verify_iff_witness :
    (∃ tok, (token false envW storeW "authorization_code" "test-code" "test-verifier" 0).2 =
        .ok tok "bearer") ↔
      compute_code_challenge "test-verifier" = compute_code_challenge "test-verifier" :=
  (token_pkce_verify_iff envW storeW "test-code" "test-verifier" 0 fieldsW 600
    (compute_code_challenge "test-verifier") "test-client" "HS256" "test-secret-key"
    rfl rfl rfl rfl (by decide) rfl).1

/-- C8: a successful `token` call answers token type `"bearer"` and an access
token signed with the configured secret key and algorithm whose payload
carries `sub` equal to the redeemed record's `client_id` and `exp` equal to
the current time plus the configured lifetime. -/
theorem token_success_issues_bearer (env : Env) (s : Store) (c v : String) (now : Nat)
    (fields : List (String × String)) (ttl : Nat) (cid : String) (s' : Store)
    (tok : SignedJwt) (tt : String)
    (hrec : s ("auth:" ++ c) = some ⟨.jsonOf fields, ttl⟩)
    (hcid : fields.lookup "client_id" = some cid)
    (hok : token false env s "authorization_code" c v now = (s', .ok tok tt)) :
    tt = "bearer" ∧ tok.sub = cid ∧
    tok.exp = now + 60 * ACCESS_TOKEN_EXPIRE_MINUTES env ∧
    SECRET_KEY env = some tok.key ∧ ALGORITHM env = some tok.alg := by
  have h2 := congrArg Prod.snd hok
  rw [token_grant_ok, take_found s c fields ttl hrec] at h2
  dsimp only at h2
  cases hchl : fields.lookup "code_challenge" with
  | none =>
    rw [tokenDecision, lookup_nonempty hcid] at h2
    simp [hchl] at h2
  | some expected =>
    rw [tokenDecision_found env v now fields expected hchl] at h2
    by_cases hcmp : compute_code_challenge v ≠ expected
    · rw [if_pos hcmp] at h2
      simp at h2
    · rw [if_neg hcmp, hcid] at h2
      dsimp only at h2
      cases hjwt : jwt_encode cid (now + 60 * ACCESS_TOKEN_EXPIRE_MINUTES env)
          (SECRET_KEY env) (ALGORITHM env) with
      | error e => rw [hjwt] at h2; simp at h2
      | ok t =>
        rw [hjwt] at h2
        injection h2 with ht htt
        obtain ⟨hsub, hexp, hkey, halg, _⟩ :=
          jwt_encode_ok cid (now + 60 * ACCESS_TOKEN_EXPIRE_MINUTES env)
            (SECRET_KEY env) (ALGORITHM env) t hjwt
        subst ht
        exact ⟨htt.symm, hsub, hexp, hkey, halg⟩

set_option maxRecDepth 1000000 in
/-- Witness for C8: the complete fixture run issues
`⟨test-client, 1800, test-secret-key, HS256⟩` as a bearer token. -/
theorem token_success_issues_bearer_witness :
    ("bearer" : String) = "bearer" ∧ jwtW.sub = "test-client" ∧
    jwtW.exp = 0 + 60 * ACCESS_TOKEN_EXPIRE_MINUTES envW ∧
    SECRET_KEY envW = some jwtW.key ∧ ALGORITHM envW = some jwtW.alg :=
  token_success_issues_bearer envW storeW "test-code" "test-verifier" 0 fieldsW 600
    "test-client" s8W jwtW "bearer" rfl rfl (by rfl)

/-- A token call for a code whose key is absent: error outcome, key still
absent. -/
theorem token_key_absent (err : Bool) (env : Env) (s : Store) (g c v : String)
    (now : Nat) (h : s ("auth:" ++ c) = none) :
    (token err env s g c v now).2.isOk = false ∧
    (token err env s g c v now).1 ("auth:" ++ c) = none := by
  by_cases hg : g = "authorization_code"
  · subst hg
    cases err with
    | false =>
      rw [token_grant_ok, take_missing s c h]
      exact ⟨rfl, h⟩
    | true =>
      rw [token_grant_ok]
      exact ⟨rfl, h⟩
  · rw [token_wrong_grant err env s g c v now hg]
    exact ⟨rfl, h⟩

/-- After any token call for code `c`, either the key is gone, or the store is
untouched and the call did not succeed. -/
theorem token_post_state (err : Bool) (env : Env) (s : Store) (g c v : String)
    (now : Nat) :
    (token err env s g c v now).1 ("auth:" ++ c) = none ∨
    ((token err env s g c v now).1 = s ∧ (token err env s g c v now).2.isOk = false) := by
  by_cases hg : g = "authorization_code"
  · subst hg
    cases err with
    | false =>
      left
      rw [token_grant_ok]
      exact take_deletes_key s c
    | true =>
      right
      rw [token_grant_ok]
      exact ⟨rfl, rfl⟩
  · right
    rw [token_wrong_grant err env s g c v now hg]
    exact ⟨rfl, rfl⟩

/-- Once the key for code `c` is absent, a batch of token requests for `c`
contains no success at all. -/
theorem runTokens_absent (err : Bool) (env : Env) (now : Nat) (c : String) :
    ∀ (reqs : List (String × String × String)) (s : Store),
    (∀ r ∈ reqs, r.2.1 = c) → s ("auth:" ++ c) = none →
    ((runTokens err env now s reqs).2.countP TokenOutcome.isOk) = 0 := by
  intro reqs
  induction reqs with
  | nil => intro s _ _; rfl
  | cons hd tl ih =>
    intro s hall hkey
    obtain ⟨g, cc, v⟩ := hd
    have hc : c = cc := (hall (g, cc, v) (List.mem_cons_self _ _)).symm
    subst hc
    have hall' : ∀ r ∈ tl, r.2.1 = c := fun r hr => hall r (List.mem_cons_of_mem _ hr)
    have h1 := token_key_absent err env s g c v now hkey
    simp only [runTokens, List.countP_cons, h1.1]
    rw [ih _ hall' h1.2]
    simp

/-- C1: however `N` token requests naming the same code `c` are interleaved —
each request's store interaction being the one atomic pipelined take, so every
concurrent schedule coincides with some sequential order from some initial
store — at most one of them receives the non-error response; all others fail. -/
theorem token_same_code_at_most_one_success (err : Bool) (env : Env) (now : Nat)
    (c : String) : ∀ (reqs : List (String × String × String)) (s : Store),
    (∀ r ∈ reqs, r.2.1 = c) →
    ((runTokens err env now s reqs).2.countP TokenOutcome.isOk) ≤ 1 := by
  intro reqs
  induction reqs with
  | nil => intro s _; simp [runTokens]
  | cons hd tl ih =>
    intro s hall
    obtain ⟨g, cc, v⟩ := hd
    have hc : c = cc := (hall (g, cc, v) (List.mem_cons_self _ _)).symm
    subst hc
    have hall' : ∀ r ∈ tl, r.2.1 = c := fun r hr => hall r (List.mem_cons_of_mem _ hr)
    simp only [runTokens, List.countP_cons]
    rcases token_post_state err env s g c v now with hnone | ⟨hs, hok⟩
    · rw [runTokens_absent err env now c tl _ hall' hnone]
      split <;> omega
    · rw [hs, hok]
      simp only [Bool.false_eq_true, if_false, Nat.add_zero]
      exact ih s hall'

/-- Witness for C1: two identical redemptions of `test-code`. -/
theorem token_same_code_at_most_one_success_witness :
    ((runTokens false envW 0 storeW reqsW).2.countP TokenOutcome.isOk) ≤ 1 :=
  token_same_code_at_most_one_success false envW 0 "test-code" reqsW storeW (by decide)

end Buckit
